import Mathlib

/-!
Verification model of the BluVoiceAssistant repository.

The Python sources `bluos_api.py`, `voice_recoginition.py` and `main.py`
are shallowly embedded: pure logic becomes Lean functions, the HTTP /
speech / NLU collaborators become explicit inputs, and exceptions become
`Except` / explicit outcome constructors.  Theorems at the end of the file
settle the specified behaviours of command dispatch, the device client's
error normalisation, the retry configuration, and the session loop.
-/

namespace BluVoice

/-! ## Device client model (`bluos_api.py`) -/

/-- Embedding of the `BluOSAPIError(Exception)` class: the uniform error
type of the device client, carrying a human-readable message. -/
structure BluOSAPIError where
  message : String
  deriving DecidableEq

/-- A parsed XML document (the result of `ElementTree.fromstring`):
a tag with a list of child nodes.  Its internal structure is never
inspected by the code under study. -/
inductive Xml where
  | node (tag : String) (children : List Xml)

/-- An HTTP response as seen by `requests`: a status code and a body. -/
structure HttpResponse where
  status : Nat
  body : String
  deriving DecidableEq

/-- Outcome of `session.get` for one logical request: a timeout
(`requests.exceptions.Timeout`), a connection-level failure
(`requests.exceptions.ConnectionError` etc., carrying the exception
text), or a response from the device. -/
inductive RequestResult where
  | timeout
  | connError (msg : String)
  | success (resp : HttpResponse)
  deriving DecidableEq

/-- Bytes treated as whitespace by Python's `bytes.strip()`. -/
def pyWhitespace (c : Char) : Bool :=
  c == ' ' || c == '\t' || c == '\n' || c == '\r' || c == '\x0b' || c == '\x0c'

/-- The test `not response.content.strip()` from `send_command`:
true exactly when the body is empty or whitespace only. -/
def strippedEmpty (s : String) : Bool :=
  s.toList.all pyWhitespace

/-- Message of the `requests.exceptions.HTTPError` raised by
`response.raise_for_status()` for a 4xx/5xx status. -/
def httpErrorMsg (status : Nat) : String :=
  toString status ++ (if status < 500 then " Client Error" else " Server Error")

/-- Embedding of `send_command` (bluos_api.py, lines 36-75).  The HTTP
transport is the `req` input; the XML parser `ElementTree.fromstring` is
the collaborator `parse` (returning the parse-error text on failure).
`raise_for_status` raises for status codes in [400, 600); an empty or
whitespace-only body yields `none` ("no content"); every failure is
normalised to a `BluOSAPIError` whose message keeps the failure modes
apart. -/
def send_command (parse : String → Except String Xml) (req : RequestResult) :
    Except BluOSAPIError (Option Xml) :=
  match req with
  | RequestResult.timeout => Except.error { message := "Request timed out" }
  | RequestResult.connError e => Except.error { message := "Request error: " ++ e }
  | RequestResult.success r =>
    if 400 ≤ r.status ∧ r.status < 600 then
      Except.error { message := "Request error: " ++ httpErrorMsg r.status }
    else if strippedEmpty r.body then
      Except.ok none
    else
      match parse r.body with
      | Except.ok root => Except.ok (some root)
      | Except.error e => Except.error { message := "XML parse error: " ++ e }

/-! ## Retry configuration (`create_session`, bluos_api.py lines 20-34) -/

/-- Embedding of `urllib3.util.Retry`: the fields relevant to the retry
policy.  `read`/`connect` are `none` when left to fall back to `total`. -/
structure Retry where
  total : Nat
  read : Option Nat
  connect : Option Nat
  backoff_factor : Rat
  status_forcelist : List Nat
  deriving DecidableEq

/-- `Retry.from_int n` as urllib3 performs it when an integer is passed
for `max_retries`: total = n, everything else left at its defaults
(no status forcelist, zero backoff). -/
def retryFromInt (n : Nat) : Retry :=
  { total := n, read := none, connect := none,
    backoff_factor := 0, status_forcelist := [] }

/-- Embedding of `requests.adapters.HTTPAdapter`: it stores its
`max_retries` argument converted through `Retry.from_int`. -/
structure HTTPAdapter where
  max_retries : Retry
  deriving DecidableEq

/-- A `requests.Session` with the adapter mounted for `http://`. -/
structure Session where
  adapter : HTTPAdapter
  deriving DecidableEq

/-- The `Retry(...)` object constructed on lines 22-28 of
`create_session`. -/
def configured_retry (retries : Nat) (backoff_factor : Rat)
    (status_forcelist : List Nat) : Retry :=
  { total := retries, read := some retries, connect := some retries,
    backoff_factor := backoff_factor, status_forcelist := status_forcelist }

/-- Embedding of `create_session` (bluos_api.py lines 20-31).  Note that,
as in the source, the constructed `Retry` object is bound to a local and
never used: the adapter is mounted with `HTTPAdapter(max_retries = retries)`,
i.e. with the plain integer. -/
def create_session (retries : Nat) (backoff_factor : Rat)
    (status_forcelist : List Nat) : Session :=
  let _retry := configured_retry retries backoff_factor status_forcelist
  let adapter : HTTPAdapter := { max_retries := retryFromInt retries }
  { adapter := adapter }

/-- The module-level `session = create_session()` with the default
arguments `retries = 3`, `backoff_factor = 0.3`,
`status_forcelist = (500, 502, 504)`. -/
def session : Session :=
  create_session 3 (3 / 10) [500, 502, 504]

/-- Number of HTTP requests a mounted retry configuration issues against
a device whose successive responses have the statuses `statuses 0`,
`statuses 1`, ...: after a response whose status is in the forcelist the
request is retried while retries remain, any other response is returned
at once. -/
def requestsMade (r : Retry) (statuses : Nat → Nat) : Nat :=
  go r.total 0
where
  go : Nat → Nat → Nat
    | 0, _ => 1
    | n + 1, i =>
      if r.status_forcelist.contains (statuses i) then 1 + go n (i + 1) else 1

/-! ## Device commands (`bluos_api.py` lines 94-199) -/

/-- One HTTP control call as handed to `send_command`: the command path
segment and the query-parameter dictionary in insertion order.  A `none`
value records a parameter whose Python value is `None` (requests omits
it from the query string). -/
structure DeviceCall where
  command : String
  params : List (String × Option Int)
  deriving DecidableEq

/-- Embedding of `play`: `params = {'seek': seek} if seek else None`. -/
def play (seek : Int) : DeviceCall :=
  { command := "Play", params := if seek == 0 then [] else [("seek", some seek)] }

/-- Embedding of `pause`: no parameters. -/
def pause : DeviceCall :=
  { command := "Pause", params := [] }

/-- Embedding of `set_volume` (lines 127-149): starts from
`{'tell_slaves': tell_slaves}` and adds `level`, `abs_db`, `mute` only
when they are not `None`. -/
def set_volume (level abs_db mute_arg : Option Int) (tell_slaves : Int) : DeviceCall :=
  { command := "Volume",
    params := [("tell_slaves", some tell_slaves)]
      ++ (match level with | some l => [("level", some l)] | none => [])
      ++ (match abs_db with | some d => [("abs_db", some d)] | none => [])
      ++ (match mute_arg with | some m => [("mute", some m)] | none => []) }

/-- Embedding of `mute` (lines 151-167). -/
def mute (mute_state : Int) (tell_slaves : Int) : DeviceCall :=
  { command := "Volume",
    params := [("mute", some mute_state), ("tell_slaves", some tell_slaves)] }

/-- Embedding of `adjust_volume` (lines 169-185): the `db` parameter is
always present in the dictionary, with whatever value was passed. -/
def adjust_volume (db_change : Option Int) (tell_slaves : Int) : DeviceCall :=
  { command := "Volume",
    params := [("db", db_change), ("tell_slaves", some tell_slaves)] }

/-- Embedding of `skip`. -/
def skip : DeviceCall :=
  { command := "Skip", params := [] }

/-! ## Intent classification (`voice_recoginition.py` lines 79-122) -/

/-- A CLU entity: a category and a text value. -/
structure Entity where
  category : String
  text : String
  deriving DecidableEq

/-- The dictionary returned by `get_intent_from_clu`. -/
structure IntentData where
  intent : Option String
  entities : List Entity
  deriving DecidableEq

/-- Outcome of the Azure CLU provider call: either a prediction (top
intent plus entities) or an exception raised anywhere inside the
`try` block. -/
inductive CluOutcome where
  | ok (intent : String) (entities : List Entity)
  | failure (msg : String)
  deriving DecidableEq

/-- Embedding of `get_intent_from_clu`: on provider success the top
intent and entities are returned; on any exception the handler returns
`{"intent": None, "entities": []}`. -/
def get_intent_from_clu (o : CluOutcome) : IntentData :=
  match o with
  | CluOutcome.ok i es => { intent := some i, entities := es }
  | CluOutcome.failure _ => { intent := none, entities := [] }

/-! ## Python `int()` conversion -/

/-- Digit-sequence part of Python's `int()` on a string: digits with
single underscores allowed strictly between digits.  The boolean state
records whether the previous character was a digit. -/
def pyDigits : List Char → Nat → Bool → Option Nat
  | [], acc, true => some acc
  | [], _, false => none
  | c :: rest, acc, lastDigit =>
    if c.isDigit then pyDigits rest (acc * 10 + (c.toNat - 48)) true
    else if c == '_' && lastDigit then pyDigits rest acc false
    else none

/-- Leading/trailing whitespace removal as Python `int()` performs it. -/
def pyStripChars (cs : List Char) : List Char :=
  ((cs.dropWhile pyWhitespace).reverse.dropWhile pyWhitespace).reverse

/-- Embedding of Python's `int(s)`: strip whitespace, optional sign,
decimal digits (underscores between digits allowed); `none` models the
`ValueError` raised on any other input. -/
def pyInt (s : String) : Option Int :=
  match pyStripChars s.toList with
  | '+' :: rest => (pyDigits rest 0 false).map (fun n => (n : Int))
  | '-' :: rest => (pyDigits rest 0 false).map (fun n => -(n : Int))
  | rest => (pyDigits rest 0 false).map (fun n => (n : Int))

/-! ## Command dispatch (`execute_bluos_command`, voice_recoginition.py
lines 125-158) -/

/-- Result of one `execute_bluos_command` run:
`calls` — returned normally after issuing exactly these device calls
(possibly none, for the incomplete-volume-command case);
`notRecognized` — no table entry for the intent, "Command not
recognized" is printed and the function returns;
`processExit` — the `TurnOff` entry spoke a farewell and called
`exit(0)`;
`valueError` — `int(entity["text"])` raised `ValueError` on this text. -/
inductive DispatchResult where
  | calls (made : List DeviceCall)
  | notRecognized
  | processExit
  | valueError (text : String)
  deriving DecidableEq

/-- Line 139: `next((int(entity["text"]) for entity in entities if
entity["category"] == "Volume Level"), None)` — the first matching
entity's text is converted with `int`, which may raise (`Except.error`
carries the offending text). -/
def extract_volume_level (entities : List Entity) : Except String (Option Int) :=
  match entities.find? (fun e => e.category == "Volume Level") with
  | none => Except.ok none
  | some e =>
    match pyInt e.text with
    | some n => Except.ok (some n)
    | none => Except.error e.text

/-- ASCII lower-casing of one character, as Python's `str.lower()`
performs it on the ASCII range. -/
def charLower (c : Char) : Char :=
  if 65 ≤ c.toNat ∧ c.toNat ≤ 90 then Char.ofNat (c.toNat + 32) else c

/-- Python's `str.lower()` (on ASCII text). -/
def pyLower (s : String) : String :=
  String.mk (s.toList.map charLower)

/-- Line 140: the first `VolumeModifier` entity's text, lower-cased. -/
def extract_volume_modifier (entities : List Entity) : Option String :=
  (entities.find? (fun e => e.category == "VolumeModifier")).map
    (fun e => pyLower e.text)

/-- Embedding of the dispatch part of `execute_bluos_command`, after
`get_intent_from_clu` has produced `intent` and `entities`.  Mirrors the
`command_mapping` dictionary literally; `.get(intent)` returning `None`
(unmapped or absent intent) leads to the "not recognized" branch. -/
def execute_bluos_command (intent : Option String) (entities : List Entity) :
    DispatchResult :=
  match extract_volume_level entities with
  | Except.error t => DispatchResult.valueError t
  | Except.ok volume_level =>
    let volume_modifier := extract_volume_modifier entities
    match intent with
    | some "PlayMusic" => DispatchResult.calls [play 0]
    | some "PausePlayback" => DispatchResult.calls [pause]
    | some "SetVolume" =>
      if volume_modifier == some "to" then
        DispatchResult.calls [set_volume volume_level none none 0]
      else DispatchResult.calls []
    | some "AdjustVolume" =>
      if volume_modifier == some "by" then
        DispatchResult.calls [adjust_volume volume_level 0]
      else DispatchResult.calls []
    | some "Mute" => DispatchResult.calls [mute 1 0]
    | some "Unmute" => DispatchResult.calls [mute 0 0]
    | some "SkipTrack" => DispatchResult.calls [skip]
    | some "TurnOff" => DispatchResult.processExit
    | _ => DispatchResult.notRecognized

/-! ## Session loop (`main.py`) -/

/-- How the body of one `while True` iteration in `main` ended:
normal return, a raised `BluOSAPIError`, a `KeyboardInterrupt`, any
other exception (its Python type name and payload), or a process exit
from inside the body. -/
inductive BodyOutcome where
  | ok
  | apiError (e : BluOSAPIError)
  | interrupt
  | otherExn (exnType : String) (info : String)
  | exited
  deriving DecidableEq

/-- Perform the dispatched device calls in order against a device
(`send_command` behaviour abstracted as a function); the first
`BluOSAPIError` aborts the rest, as an exception would. -/
def runCalls (device : DeviceCall → Except BluOSAPIError (Option Xml)) :
    List DeviceCall → Option BluOSAPIError
  | [] => none
  | c :: rest =>
    match device c with
    | Except.error e => some e
    | Except.ok _ => runCalls device rest

/-- How one dispatch result turns into a loop-body outcome: a
`ValueError` from `int()` propagates as a non-`BluOSAPIError` exception,
`TurnOff` exits the process, a device call may raise `BluOSAPIError`. -/
def bodyOutcome (r : DispatchResult)
    (device : DeviceCall → Except BluOSAPIError (Option Xml)) : BodyOutcome :=
  match r with
  | DispatchResult.valueError t => BodyOutcome.otherExn "ValueError" t
  | DispatchResult.processExit => BodyOutcome.exited
  | DispatchResult.notRecognized => BodyOutcome.ok
  | DispatchResult.calls cs =>
    match runCalls device cs with
    | some e => BodyOutcome.apiError e
    | none => BodyOutcome.ok

/-- What the loop does after the current iteration. -/
inductive LoopStep where
  | nextIter
  | stop
  | crash (exnType : String) (info : String)
  | exited
  deriving DecidableEq

/-- Speech produced by the exception handlers plus the control decision. -/
structure LoopReaction where
  spoken : List String
  step : LoopStep
  deriving DecidableEq

/-- Embedding of the `try/except` structure of `main` (main.py lines
7-24): `except BluOSAPIError` speaks the error and continues, `except
KeyboardInterrupt` speaks a farewell and breaks; any other exception is
unhandled and crashes the loop; a process exit inside the body ends the
process. -/
def main_loop_iteration (o : BodyOutcome) : LoopReaction :=
  match o with
  | BodyOutcome.ok => { spoken := [], step := LoopStep.nextIter }
  | BodyOutcome.apiError e =>
    { spoken := ["An error occurred: " ++ e.message], step := LoopStep.nextIter }
  | BodyOutcome.interrupt =>
    { spoken := ["Stopping voice assistant..."], step := LoopStep.stop }
  | BodyOutcome.otherExn t i => { spoken := [], step := LoopStep.crash t i }
  | BodyOutcome.exited => { spoken := [], step := LoopStep.exited }

/-! ## Keyword resolution strategy -/

/-- Tests whether `needle` starts `hay` (character by character). -/
def listStarts : List Char → List Char → Bool
  | [], _ => true
  | _ :: _, [] => false
  | a :: as, b :: bs => a == b && listStarts as bs

/-- Tests whether `needle` occurs somewhere in `hay`. -/
def listContains (needle : List Char) : List Char → Bool
  | [] => needle.isEmpty
  | c :: t => listStarts needle (c :: t) || listContains needle t

/-- Python's `needle in hay` substring test on strings. -/
def strContains (hay needle : String) : Bool :=
  listContains needle.toList hay.toList

/-- The discrete actions of the keyword strategy's table. -/
inductive KeywordAction where
  | playMusic
  | pausePlayback
  | volumeDelta (delta : Int)
  | skipTrack
  | previousTrack
  | shuffleSet (state : Bool)
  | repeatSet (state : Bool)
  | unknown
  deriving DecidableEq

/-- Modelled from the spec: the keyword resolution strategy's fixed
ordered table of substring keys (the variant of the command mapping not
present under `src/`): "play", "pause", "stop"→pause, "volume up"→+10
level, "volume down"→−10 level, "skip"/"next", "back"/"previous",
"shuffle on"/"shuffle off", "repeat on"/"repeat off", in declaration
order. -/
def keyword_table : List (String × KeywordAction) :=
  [("play", KeywordAction.playMusic),
   ("pause", KeywordAction.pausePlayback),
   ("stop", KeywordAction.pausePlayback),
   ("volume up", KeywordAction.volumeDelta 10),
   ("volume down", KeywordAction.volumeDelta (-10)),
   ("skip", KeywordAction.skipTrack),
   ("next", KeywordAction.skipTrack),
   ("back", KeywordAction.previousTrack),
   ("previous", KeywordAction.previousTrack),
   ("shuffle on", KeywordAction.shuffleSet true),
   ("shuffle off", KeywordAction.shuffleSet false),
   ("repeat on", KeywordAction.repeatSet true),
   ("repeat off", KeywordAction.repeatSet false)]

/-- Modelled from the spec: keyword resolution returns the action bound
to the first key (in table-declaration order) that occurs as a substring
of the input, and `unknown` when no key matches. -/
def resolve_keyword (input : String) : KeywordAction :=
  match keyword_table.find? (fun kv => strContains input kv.1) with
  | some kv => kv.2
  | none => KeywordAction.unknown

/-! ## Helper lemmas -/

/-- `find?` returns the element at the first index whose predicate
holds. -/
theorem find_eq_get {α : Type} (p : α → Bool) :
    ∀ (l : List α) (i : Fin l.length),
      (∀ j : Fin l.length, (j : Nat) < (i : Nat) → p (l.get j) = false) →
      p (l.get i) = true → l.find? p = some (l.get i)
  | [], i, _, _ => absurd i.2 (Nat.not_lt_zero _)
  | a :: t, ⟨0, _⟩, _, hi => by
    simp only [List.get] at hi
    simp [List.find?, hi]
  | a :: t, ⟨j + 1, hj⟩, hfirst, hi => by
    have ha : p a = false := hfirst ⟨0, Nat.succ_pos _⟩ (Nat.succ_pos _)
    simp only [List.find?, ha]
    exact find_eq_get p t ⟨j, Nat.lt_of_succ_lt_succ hj⟩
      (fun k hk => hfirst ⟨k + 1, Nat.succ_lt_succ k.2⟩ (Nat.succ_lt_succ hk))
      hi

/-- String `m` starts with `p`. -/
def strStartsWith (m p : String) : Bool :=
  listStarts p.toList m.toList

theorem listStarts_refl_append : ∀ (p e : List Char), listStarts p (p ++ e) = true
  | [], _ => rfl
  | a :: as, e => by simp [listStarts, listStarts_refl_append as e]

theorem strStartsWith_append (p e : String) : strStartsWith (p ++ e) p = true :=
  listStarts_refl_append p.toList e.toList

theorem listStarts_head_ne (a b : Char) (h : (a == b) = false) (as bs : List Char) :
    listStarts (a :: as) (b :: bs) = false := by
  simp [listStarts, h]

/-! ## Claim theorems -/

/-- C7: if the intent-classification provider fails (raises internally),
`get_intent_from_clu` returns a result with a null intent and an empty
entity list rather than raising. -/
theorem get_intent_from_clu_failure_defaults (msg : String) :
    get_intent_from_clu (CluOutcome.failure msg) =
      { intent := none, entities := [] } := rfl

/-- C5: a successful response with an empty (or whitespace-only) body
yields the "no content" value `none`, not an error; a successful
non-empty body yields the parsed tag/value tree. -/
theorem send_command_success_bodies :
    (∀ (parse : String → Except String Xml) (r : HttpResponse),
        ¬(400 ≤ r.status ∧ r.status < 600) → strippedEmpty r.body = true →
        send_command parse (RequestResult.success r) = Except.ok none) ∧
    (∀ (parse : String → Except String Xml) (r : HttpResponse) (t : Xml),
        ¬(400 ≤ r.status ∧ r.status < 600) → strippedEmpty r.body = false →
        parse r.body = Except.ok t →
        send_command parse (RequestResult.success r) = Except.ok (some t)) := by
  constructor
  · intro parse r h1 h2
    simp [send_command, h1, h2]
  · intro parse r t h1 h2 h3
    simp [send_command, h1, h2, h3]

/-- C5 witness: a whitespace-only 200 body gives `Except.ok none`; the
body `<volume/>` gives the parsed tree. -/
theorem send_command_success_bodies_witness :
    send_command (fun _ => Except.error "junk") (RequestResult.success ⟨200, " "⟩) =
      Except.ok none ∧
    send_command (fun _ => Except.ok (Xml.node "volume" []))
        (RequestResult.success ⟨200, "<volume/>"⟩) =
      Except.ok (some (Xml.node "volume" [])) :=
  ⟨send_command_success_bodies.1 _ ⟨200, " "⟩ (by decide) (by decide),
   send_command_success_bodies.2 _ ⟨200, "<volume/>"⟩ _ (by decide) (by decide) rfl⟩

/-- C2: the claim says the mounted retry policy makes up to 3 attempts
with backoff 0.3 and retries 500/502/504.  The code builds exactly that
`Retry` object but mounts `HTTPAdapter(max_retries = retries)` with the
plain integer, discarding it: the adapter's effective policy has an
empty status forcelist and zero backoff, so a repeated-502 device makes
exactly one attempt (no retry, no backoff), while the discarded object
carries the documented policy (and would have made 4 requests on
repeated 502).  A single 4xx makes one attempt under either policy. -/
theorem create_session_discards_retry_config :
    session.adapter.max_retries = retryFromInt 3 ∧
    session.adapter.max_retries.status_forcelist = [] ∧
    session.adapter.max_retries.backoff_factor = 0 ∧
    requestsMade session.adapter.max_retries (fun _ => 502) = 1 ∧
    requestsMade session.adapter.max_retries (fun _ => 404) = 1 ∧
    (configured_retry 3 (3 / 10) [500, 502, 504]).status_forcelist = [500, 502, 504] ∧
    (configured_retry 3 (3 / 10) [500, 502, 504]).backoff_factor = 3 / 10 ∧
    requestsMade (configured_retry 3 (3 / 10) [500, 502, 504]) (fun _ => 502) = 4 ∧
    requestsMade (configured_retry 3 (3 / 10) [500, 502, 504]) (fun _ => 404) = 1 := by
  refine ⟨rfl, rfl, rfl, rfl, rfl, rfl, rfl, rfl, rfl⟩

/-- C3 counterexample: the kinds `PreviousTrack`, `ShuffleOn`,
`ShuffleOff`, `RepeatOn`, `RepeatOff` listed in the data model are not
in the dispatch table: they fall through to the "not recognized" branch
with no device call, contrary to the claim that every kind other than
Unknown maps to exactly one DeviceClient operation. -/
theorem previous_track_not_mapped_cex :
    execute_bluos_command (some "PreviousTrack") [] = DispatchResult.notRecognized ∧
    execute_bluos_command (some "ShuffleOn") [] = DispatchResult.notRecognized ∧
    execute_bluos_command (some "ShuffleOff") [] = DispatchResult.notRecognized ∧
    execute_bluos_command (some "RepeatOn") [] = DispatchResult.notRecognized ∧
    execute_bluos_command (some "RepeatOff") [] = DispatchResult.notRecognized :=
  ⟨rfl, rfl, rfl, rfl, rfl⟩

/-- The eight intent labels present in the `command_mapping` dictionary
of `execute_bluos_command`. -/
def mapped_intents : List String :=
  ["PlayMusic", "PausePlayback", "SetVolume", "AdjustVolume",
   "Mute", "Unmute", "SkipTrack", "TurnOff"]

/-- C3 (amended): exactly the intents PlayMusic, PausePlayback,
SetVolume, AdjustVolume, Mute, Unmute and SkipTrack map to a single
device operation in the dispatch table (TurnOff maps to process
termination, not a device call); every other intent — including the
data-model kinds PreviousTrack, ShuffleOn/Off and RepeatOn/Off — and an
absent intent trigger no device call: dispatch reports a non-fatal "not
recognized" outcome and returns normally. -/
theorem dispatch_table_coverage :
    (execute_bluos_command (some "PlayMusic") [] = DispatchResult.calls [play 0]) ∧
    (execute_bluos_command (some "PausePlayback") [] = DispatchResult.calls [pause]) ∧
    (execute_bluos_command (some "SetVolume") [⟨"VolumeModifier", "to"⟩] =
        DispatchResult.calls [set_volume none none none 0]) ∧
    (execute_bluos_command (some "AdjustVolume") [⟨"VolumeModifier", "by"⟩] =
        DispatchResult.calls [adjust_volume none 0]) ∧
    (execute_bluos_command (some "Mute") [] = DispatchResult.calls [mute 1 0]) ∧
    (execute_bluos_command (some "Unmute") [] = DispatchResult.calls [mute 0 0]) ∧
    (execute_bluos_command (some "SkipTrack") [] = DispatchResult.calls [skip]) ∧
    (execute_bluos_command (some "TurnOff") [] = DispatchResult.processExit) ∧
    (∀ s : String, s ∉ mapped_intents →
      ∀ (es : List Entity) (v : Option Int), extract_volume_level es = Except.ok v →
        execute_bluos_command (some s) es = DispatchResult.notRecognized) ∧
    (∀ (es : List Entity) (v : Option Int), extract_volume_level es = Except.ok v →
        execute_bluos_command none es = DispatchResult.notRecognized) := by
  refine ⟨rfl, rfl, rfl, rfl, rfl, rfl, rfl, rfl, ?_, ?_⟩
  · intro s hs es v hv
    simp only [execute_bluos_command, hv]
    split <;> simp_all [mapped_intents]
  · intro es v hv
    simp only [execute_bluos_command, hv]

/-- C3 witness: the unmapped intent `PreviousTrack`, with a well-formed
volume entity present, is reported as not recognized. -/
theorem dispatch_table_coverage_witness :
    ("PreviousTrack" ∉ mapped_intents) ∧
    execute_bluos_command (some "PreviousTrack") [⟨"Volume Level", "30"⟩] =
      DispatchResult.notRecognized :=
  ⟨by decide,
   dispatch_table_coverage.2.2.2.2.2.2.2.2.1 "PreviousTrack" (by decide)
     [⟨"Volume Level", "30"⟩] (some 30) rfl⟩

/-- C1 counterexample: with intent `SetVolume` and a modifier entity
whose text is `"TO"` — not exactly `"to"` — the dispatcher still issues
an absolute-level Volume call, because line 140 lower-cases the entity
text before the comparison; the claim says any modifier value other
than exactly `"to"` yields no device call. -/
theorem set_volume_uppercase_modifier_cex :
    execute_bluos_command (some "SetVolume")
        [⟨"Volume Level", "30"⟩, ⟨"VolumeModifier", "TO"⟩] =
      DispatchResult.calls [set_volume (some 30) none none 0] ∧
    ("TO" : String) ≠ "to" :=
  ⟨rfl, by decide⟩

/-- C1 (amended): with the comparison applied to the lower-cased
modifier text: if the intent is `SetVolume` and the lower-cased modifier
is `"to"`, exactly one absolute-level Volume call is issued carrying the
numeric level; if the intent is `AdjustVolume` and the lower-cased
modifier is `"by"`, exactly one relative Volume call is issued with the
`db` parameter equal to the numeric level; any other modifier value on
these two intents yields no device call and a non-error return. -/
theorem volume_dispatch_modifier_cases (es : List Entity) (n : Int)
    (hl : extract_volume_level es = Except.ok (some n)) :
    (extract_volume_modifier es = some "to" →
      execute_bluos_command (some "SetVolume") es =
        DispatchResult.calls [set_volume (some n) none none 0] ∧
      (set_volume (some n) none none 0).command = "Volume" ∧
      (set_volume (some n) none none 0).params =
        [("tell_slaves", some 0), ("level", some n)]) ∧
    (extract_volume_modifier es = some "by" →
      execute_bluos_command (some "AdjustVolume") es =
        DispatchResult.calls [adjust_volume (some n) 0] ∧
      (adjust_volume (some n) 0).command = "Volume" ∧
      (adjust_volume (some n) 0).params = [("db", some n), ("tell_slaves", some 0)]) ∧
    (extract_volume_modifier es ≠ some "to" →
      execute_bluos_command (some "SetVolume") es = DispatchResult.calls []) ∧
    (extract_volume_modifier es ≠ some "by" →
      execute_bluos_command (some "AdjustVolume") es = DispatchResult.calls []) := by
  refine ⟨?_, ?_, ?_, ?_⟩ <;> intro hm <;>
    simp [execute_bluos_command, hl, hm, set_volume, adjust_volume]

/-- C1 witness: `SetVolume`/`to` issues the absolute call with level 30,
`AdjustVolume`/`by` issues the relative call with db 10, and
`SetVolume`/`by` makes no device call. -/
theorem volume_dispatch_modifier_cases_witness :
    execute_bluos_command (some "SetVolume")
        [⟨"Volume Level", "30"⟩, ⟨"VolumeModifier", "to"⟩] =
      DispatchResult.calls [set_volume (some 30) none none 0] ∧
    execute_bluos_command (some "AdjustVolume")
        [⟨"Volume Level", "10"⟩, ⟨"VolumeModifier", "by"⟩] =
      DispatchResult.calls [adjust_volume (some 10) 0] ∧
    execute_bluos_command (some "SetVolume")
        [⟨"Volume Level", "30"⟩, ⟨"VolumeModifier", "by"⟩] =
      DispatchResult.calls [] :=
  ⟨((volume_dispatch_modifier_cases
      [⟨"Volume Level", "30"⟩, ⟨"VolumeModifier", "to"⟩] 30 rfl).1 rfl).1,
   ((volume_dispatch_modifier_cases
      [⟨"Volume Level", "10"⟩, ⟨"VolumeModifier", "by"⟩] 10 rfl).2.1 rfl).1,
   (volume_dispatch_modifier_cases
      [⟨"Volume Level", "30"⟩, ⟨"VolumeModifier", "by"⟩] 30 rfl).2.2.1 (by decide)⟩

/-- C4: every failure of `send_command` — timeout, connection-level
failure, HTTP error status, malformed body — is returned as the single
uniform `BluOSAPIError` with a human-readable message (the result type
admits no other kind of failure), and the timeout and parse-error
messages are distinguishable from the `Request error:`-prefixed
transport failures. -/
theorem send_command_error_normalisation :
    (∀ parse, send_command parse RequestResult.timeout =
        Except.error { message := "Request timed out" }) ∧
    (∀ parse e, send_command parse (RequestResult.connError e) =
        Except.error { message := "Request error: " ++ e }) ∧
    (∀ parse (r : HttpResponse), 400 ≤ r.status → r.status < 600 →
        send_command parse (RequestResult.success r) =
        Except.error { message := "Request error: " ++ httpErrorMsg r.status }) ∧
    (∀ parse (r : HttpResponse) (pe : String),
        ¬(400 ≤ r.status ∧ r.status < 600) → strippedEmpty r.body = false →
        parse r.body = Except.error pe →
        send_command parse (RequestResult.success r) =
        Except.error { message := "XML parse error: " ++ pe }) ∧
    (∀ parse req, (∃ v, send_command parse req = Except.ok v) ∨
        (∃ m : BluOSAPIError, send_command parse req = Except.error m)) ∧
    (∀ e : String, strStartsWith ("Request error: " ++ e) "Request error: " = true ∧
        "Request timed out" ≠ "Request error: " ++ e ∧
        strStartsWith ("Request error: " ++ e) "XML parse error: " = false) ∧
    (∀ pe : String, strStartsWith ("XML parse error: " ++ pe) "XML parse error: " = true ∧
        "Request timed out" ≠ "XML parse error: " ++ pe ∧
        strStartsWith ("XML parse error: " ++ pe) "Request error: " = false) ∧
    strStartsWith "Request timed out" "Request error: " = false ∧
    strStartsWith "Request timed out" "XML parse error: " = false := by
  refine ⟨fun _ => rfl, fun _ _ => rfl, ?_, ?_, ?_, ?_, ?_, by decide, by decide⟩
  · intro parse r h1 h2
    simp [send_command, h1, h2]
  · intro parse r pe h1 h2 h3
    simp [send_command, h1, h2, h3]
  · intro parse req
    cases h : send_command parse req with
    | ok v => exact Or.inl ⟨v, rfl⟩
    | error m => exact Or.inr ⟨m, rfl⟩
  · intro e
    refine ⟨strStartsWith_append _ _, ?_, ?_⟩
    · intro h
      have h1 := strStartsWith_append "Request error: " e
      rw [← h] at h1
      exact absurd h1 (by decide)
    · show listStarts ("XML parse error: ").toList
        (("Request error: ").toList ++ e.toList) = false
      exact listStarts_head_ne 'X' 'R' (by decide) _ _
  · intro pe
    refine ⟨strStartsWith_append _ _, ?_, ?_⟩
    · intro h
      have h1 := strStartsWith_append "XML parse error: " pe
      rw [← h] at h1
      exact absurd h1 (by decide)
    · show listStarts ("Request error: ").toList
        (("XML parse error: ").toList ++ pe.toList) = false
      exact listStarts_head_ne 'R' 'X' (by decide) _ _

/-- C4 witness: a 502 response maps to a `Request error:`-prefixed
`BluOSAPIError`, and a malformed body maps to an `XML parse error:`
message, distinguishable from the timeout message. -/
theorem send_command_error_normalisation_witness :
    send_command (fun _ => Except.error "syntax error: line 1") (RequestResult.success ⟨502, ""⟩) =
      Except.error { message := "Request error: " ++ httpErrorMsg 502 } ∧
    send_command (fun _ => Except.error "syntax error: line 1")
        (RequestResult.success ⟨200, "garbage"⟩) =
      Except.error { message := "XML parse error: " ++ "syntax error: line 1" } ∧
    strStartsWith ("XML parse error: " ++ "syntax error: line 1") "Request error: " = false :=
  ⟨send_command_error_normalisation.2.2.1 _ ⟨502, ""⟩ (by decide) (by decide),
   send_command_error_normalisation.2.2.2.1 _ ⟨200, "garbage"⟩ "syntax error: line 1"
     (by decide) (by decide) rfl,
   (send_command_error_normalisation.2.2.2.2.2.2.1 "syntax error: line 1").2.2⟩

/-- C6 counterexample: a dispatch that raises `ValueError` (a
non-numeric `Volume Level` entity) terminates the session loop — the
`try/except` in `main` handles only `BluOSAPIError` and
`KeyboardInterrupt` — so something other than an external interrupt ends
the loop, and not gracefully. -/
theorem loop_terminates_without_interrupt_cex :
    main_loop_iteration (bodyOutcome
        (execute_bluos_command (some "SetVolume") [⟨"Volume Level", "loud"⟩])
        (fun _ => Except.ok none)) =
      { spoken := [], step := LoopStep.crash "ValueError" "loud" } ∧
    LoopStep.crash "ValueError" "loud" ≠ LoopStep.stop ∧
    LoopStep.crash "ValueError" "loud" ≠ LoopStep.nextIter :=
  ⟨rfl, by decide, by decide⟩

/-- C6 (amended): a device-client error (`BluOSAPIError`) raised during
dispatch never terminates the loop — it is spoken aloud and the loop
proceeds to the next iteration — and a `KeyboardInterrupt` ends the loop
gracefully; however the loop can also end otherwise: an exception that
is not a `BluOSAPIError` (such as the `ValueError` from a non-numeric
volume entity) crashes it, and the `TurnOff` path exits the process. -/
theorem loop_error_recovery :
    (∀ e : BluOSAPIError, main_loop_iteration (BodyOutcome.apiError e) =
        { spoken := ["An error occurred: " ++ e.message], step := LoopStep.nextIter }) ∧
    (∀ (cs : List DeviceCall) device (e : BluOSAPIError), runCalls device cs = some e →
        main_loop_iteration (bodyOutcome (DispatchResult.calls cs) device) =
        { spoken := ["An error occurred: " ++ e.message], step := LoopStep.nextIter }) ∧
    (main_loop_iteration BodyOutcome.interrupt =
        { spoken := ["Stopping voice assistant..."], step := LoopStep.stop }) ∧
    (∀ device (t : String),
        main_loop_iteration (bodyOutcome (DispatchResult.valueError t) device) =
        { spoken := [], step := LoopStep.crash "ValueError" t }) ∧
    (∀ device, main_loop_iteration (bodyOutcome DispatchResult.processExit device) =
        { spoken := [], step := LoopStep.exited }) := by
  refine ⟨fun e => rfl, ?_, rfl, fun _ _ => rfl, fun _ => rfl⟩
  intro cs device e h
  simp [bodyOutcome, h, main_loop_iteration]

/-- C6 witness: a timed-out device call is spoken and the loop
continues. -/
theorem loop_error_recovery_witness :
    main_loop_iteration (bodyOutcome (DispatchResult.calls [pause])
        (fun _ => Except.error { message := "Request timed out" })) =
      { spoken := ["An error occurred: " ++ "Request timed out"],
        step := LoopStep.nextIter } :=
  loop_error_recovery.2.1 [pause] _ { message := "Request timed out" } rfl

/-- C8: under the keyword resolution strategy, the resolved action is
the one bound to the first key, in table-declaration order, that occurs
as a substring of the input — so an input containing several table keys
resolves to the earliest-declared key's action — and if no key occurs as
a substring the result is Unknown. -/
theorem resolve_keyword_first_match :
    (∀ (input : String) (i : Fin keyword_table.length),
        (∀ j : Fin keyword_table.length, (j : Nat) < (i : Nat) →
          strContains input (keyword_table.get j).1 = false) →
        strContains input (keyword_table.get i).1 = true →
        resolve_keyword input = (keyword_table.get i).2) ∧
    (∀ input : String,
        (∀ kv ∈ keyword_table, strContains input kv.1 = false) →
        resolve_keyword input = KeywordAction.unknown) := by
  constructor
  · intro input i hfirst hi
    unfold resolve_keyword
    rw [find_eq_get (fun kv => strContains input kv.1) keyword_table i hfirst hi]
  · intro input h
    unfold resolve_keyword
    rw [List.find?_eq_none.mpr (by simpa using h)]

/-- C8 witness: "please stop and skip" contains both "stop" (table index
2) and "skip" (table index 5) and resolves to the pause action bound to
"stop"; an input containing no table key resolves to Unknown. -/
theorem resolve_keyword_first_match_witness :
    resolve_keyword "please stop and skip" = KeywordAction.pausePlayback ∧
    resolve_keyword "hello there" = KeywordAction.unknown :=
  ⟨resolve_keyword_first_match.1 "please stop and skip" ⟨2, by decide⟩
     (by decide) (by decide),
   resolve_keyword_first_match.2 "hello there" (by decide)⟩

/-- C9: if the first `Volume Level` entity's text is rejected by the
`int()` conversion, `execute_bluos_command` raises a `ValueError` — a
different outcome from the uniform `BluOSAPIError` — which the session
loop's device-error handler does not catch, crashing the loop. -/
theorem bad_volume_level_valueerror (intent : Option String) (es : List Entity)
    (e : Entity)
    (hfind : es.find? (fun x => x.category == "Volume Level") = some e)
    (hbad : pyInt e.text = none) :
    execute_bluos_command intent es = DispatchResult.valueError e.text ∧
    (∀ m : BluOSAPIError,
        BodyOutcome.otherExn "ValueError" e.text ≠ BodyOutcome.apiError m) ∧
    (∀ device,
        main_loop_iteration (bodyOutcome (execute_bluos_command intent es) device) =
        { spoken := [], step := LoopStep.crash "ValueError" e.text }) := by
  have hx : extract_volume_level es = Except.error e.text := by
    simp [extract_volume_level, hfind, hbad]
  refine ⟨?_, fun m h => by injection h, ?_⟩
  · simp [execute_bluos_command, hx]
  · intro device
    simp [execute_bluos_command, hx, bodyOutcome, main_loop_iteration]

/-- C9 witness: the entity text "thirty" is rejected by `int()`, the
dispatch raises `ValueError`, and the loop crashes on it. -/
theorem bad_volume_level_valueerror_witness :
    execute_bluos_command (some "SetVolume") [⟨"Volume Level", "thirty"⟩] =
      DispatchResult.valueError "thirty" ∧
    main_loop_iteration (bodyOutcome
        (execute_bluos_command (some "SetVolume") [⟨"Volume Level", "thirty"⟩])
        (fun _ => Except.ok none)) =
      { spoken := [], step := LoopStep.crash "ValueError" "thirty" } :=
  ⟨(bad_volume_level_valueerror (some "SetVolume") [⟨"Volume Level", "thirty"⟩]
      ⟨"Volume Level", "thirty"⟩ rfl rfl).1,
   (bad_volume_level_valueerror (some "SetVolume") [⟨"Volume Level", "thirty"⟩]
      ⟨"Volume Level", "thirty"⟩ rfl rfl).2.2 _⟩

/-- C10: with intent `SetVolume`, a modifier entity whose text is
exactly "to" and no `Volume Level` entity at all, the dispatcher still
issues one Volume call whose query parameters contain only
`tell_slaves = 0` — the absent level is silently omitted rather than
rejected as an incomplete command. -/
theorem set_volume_missing_level_param (es : List Entity)
    (hnolevel : es.find? (fun x => x.category == "Volume Level") = none)
    (e : Entity)
    (hmod : es.find? (fun x => x.category == "VolumeModifier") = some e)
    (htext : e.text = "to") :
    execute_bluos_command (some "SetVolume") es =
      DispatchResult.calls [set_volume none none none 0] ∧
    (set_volume none none none 0).command = "Volume" ∧
    (set_volume none none none 0).params = [("tell_slaves", some 0)] := by
  have hx : extract_volume_level es = Except.ok none := by
    simp [extract_volume_level, hnolevel]
  have hm : extract_volume_modifier es = some "to" := by
    simp [extract_volume_modifier, hmod, htext]
    rfl
  exact ⟨by simp [execute_bluos_command, hx, hm], rfl, rfl⟩

/-- C10 witness: the single entity `VolumeModifier = "to"` with no
volume level issues the Volume call with only `tell_slaves = 0`. -/
theorem set_volume_missing_level_param_witness :
    execute_bluos_command (some "SetVolume") [⟨"VolumeModifier", "to"⟩] =
      DispatchResult.calls [set_volume none none none 0] ∧
    (set_volume none none none 0).params = [("tell_slaves", some 0)] :=
  ⟨(set_volume_missing_level_param [⟨"VolumeModifier", "to"⟩] rfl
      ⟨"VolumeModifier", "to"⟩ rfl rfl).1,
   (set_volume_missing_level_param [⟨"VolumeModifier", "to"⟩] rfl
      ⟨"VolumeModifier", "to"⟩ rfl rfl).2.2⟩

end BluVoice




